import Mathlib

/-!
Verification development for the gophermart loyalty-points service.

The Go source is shallowly embedded: the PostgreSQL tables become lists of
records, monetary NUMERIC values become `Rat`, SQL statements become list
traversals with the same filtering/aggregation semantics, and the storage
methods of `internal/storage/postgres.go`, the accrual client of
`internal/accrual/client.go`, the Luhn predicate of `internal/luhn` and the
HTTP handlers of `internal/handlers` become Lean functions.  Row ids (UUIDs)
and timestamps are omitted: no claim under study inspects them.
-/

namespace Gophermart

/-- One row of the `orders` table: owner, unique order number, status string
and nullable accrual (`NUMERIC` → `Option Rat`). -/
structure Order where
  userID : String
  number : String
  status : String
  accrual : Option Rat
deriving DecidableEq, Repr

/-- One row of the `withdrawals` table: owner, order label and amount. -/
structure Withdrawal where
  userID : String
  orderNumber : String
  sum : Rat
deriving DecidableEq, Repr

/-- The `models.Balance` record returned by balance queries. -/
structure Balance where
  current : Rat
  withdrawn : Rat
deriving DecidableEq, Repr

/-- The mutable database state the storage layer operates on: the `orders`
and `withdrawals` tables (the `users` table plays no role in the claims). -/
structure Ledger where
  orders : List Order
  withdrawals : List Withdrawal
deriving DecidableEq, Repr

/-- The sentinel errors of `internal/storage/postgres.go`. -/
inductive StorageErr where
  | loginExists
  | orderExists
  | orderExistsOther
  | insufficientFunds
deriving DecidableEq, Repr

/-- Embeds `SELECT COALESCE(SUM(accrual), 0) FROM orders WHERE user_id = $1
AND status = 'PROCESSED'` (used by both `GetBalance` and `CreateWithdrawal`).
SQL `SUM` ignores NULL accruals and `COALESCE` turns an empty sum into 0,
which `Option.getD 0` under a list sum reproduces. -/
def sumAccrualProcessed (l : Ledger) (userID : String) : Rat :=
  ((l.orders.filter fun o => o.userID == userID && o.status == "PROCESSED").map
    fun o => o.accrual.getD 0).sum

/-- Embeds `SELECT COALESCE(SUM(sum), 0) FROM withdrawals WHERE user_id = $1`. -/
def sumWithdrawals (l : Ledger) (userID : String) : Rat :=
  ((l.withdrawals.filter fun w => w.userID == userID).map fun w => w.sum).sum

/-- Embeds `PostgresStorage.GetBalance`: two aggregate queries, then
`balance.Current -= balance.Withdrawn`. -/
def getBalance (l : Ledger) (userID : String) : Balance :=
  let current := sumAccrualProcessed l userID
  let withdrawn := sumWithdrawals l userID
  Balance.mk (current - withdrawn) withdrawn

/-- Embeds `PostgresStorage.UpdateOrder`: the unconditional
`UPDATE orders SET status = $1, accrual = $2 WHERE number = $3`.  Every row
matching the number (the column is UNIQUE, so at most one in a well-formed
database) gets both columns overwritten; there is no guard on the present
status. -/
def updateOrder (l : Ledger) (orderNumber status : String) (accrual : Option Rat) :
    Ledger :=
  Ledger.mk
    (l.orders.map fun o =>
      if o.number == orderNumber then Order.mk o.userID o.number status accrual else o)
    l.withdrawals

/-- Embeds `PostgresStorage.CreateOrder`: insert a row in status `NEW`;
on a unique-constraint violation, re-read the row by number and report
ErrOrderExists or ErrOrderExistsOther according to its owner. -/
def createOrder (l : Ledger) (userID orderNumber : String) :
    Except StorageErr Ledger :=
  match l.orders.find? fun o => o.number == orderNumber with
  | some existing =>
      if existing.userID == userID then Except.error StorageErr.orderExists
      else Except.error StorageErr.orderExistsOther
  | none =>
      Except.ok
        (Ledger.mk (l.orders ++ [Order.mk userID orderNumber "NEW" none]) l.withdrawals)

/-- Embeds `PostgresStorage.GetOrdersByStatus`:
`SELECT ... FROM orders WHERE status = ANY($1)`. -/
def getOrdersByStatus (l : Ledger) (statuses : List String) : List Order :=
  l.orders.filter fun o => statuses.contains o.status

/-- Embeds `PostgresStorage.CreateWithdrawal` run as one (sequential)
transaction: compute the two aggregates, reject with ErrInsufficientFunds
when `current - withdrawn < sum` (the transaction rolls back, so the first
component is the error and the second the untouched ledger), otherwise insert
the one withdrawal row and commit. -/
def createWithdrawal (l : Ledger) (userID orderNumber : String) (sum : Rat) :
    Except StorageErr Unit × Ledger :=
  let current := sumAccrualProcessed l userID
  let withdrawn := sumWithdrawals l userID
  if current - withdrawn < sum then
    (Except.error StorageErr.insufficientFunds, l)
  else
    (Except.ok (),
      Ledger.mk l.orders (l.withdrawals ++ [Withdrawal.mk userID orderNumber sum]))

/-- The JSON body of a 200 oracle reply (`models.AccrualResponse`): order
number, status string, optional accrual. -/
structure AccrualResponse where
  order : String
  status : String
  accrual : Option Rat
deriving DecidableEq, Repr

/-- One observable HTTP exchange made by `Client.updateOrderStatus`, as the
Go switch on `resp.StatusCode()` distinguishes them:
`transportErr` is a failed request (`err != nil`); `ok none` is a 200 whose
body `json.Unmarshal` rejects; `ok (some a)` is a well-formed 200;
`noContent` is 204; `tooMany none` is a 429 whose Retry-After header
`strconv.Atoi` rejects; `tooMany (some s)` is a 429 with a parseable
Retry-After of `s` seconds. -/
inductive OracleResp where
  | transportErr
  | ok (body : Option AccrualResponse)
  | noContent
  | tooMany (retryAfter : Option Nat)
deriving DecidableEq, Repr

/-- Embeds `Client.updateOrderStatus` for one order.  The list holds the
successive responses the oracle gives to the successive requests of one
invocation chain; the Go function consumes one response, and on a 429 with a
parseable Retry-After sleeps and calls itself, consuming the next.  All other
cases end the chain: a transport error, a malformed 200 body and a 204 do
nothing, a well-formed 200 applies `UpdateOrder` at the number, status and
accrual taken from the response body.  An exhausted list is a request still
in flight: no further effect. -/
def updateOrderStatus (l : Ledger) : List OracleResp → Ledger
  | [] => l
  | OracleResp.transportErr :: _ => l
  | OracleResp.ok none :: _ => l
  | OracleResp.ok (some a) :: _ => updateOrder l a.order a.status a.accrual
  | OracleResp.noContent :: _ => l
  | OracleResp.tooMany none :: _ => l
  | OracleResp.tooMany (some _) :: rest => updateOrderStatus l rest

/-- Classifies an invocation chain by its outcome: `some a` when it ends in a
well-formed 200 with body `a` (the spec's `Resolved`), `none` for every other
ending (`Unknown`, `TransientError`, a dropped retry, or still throttled). -/
def resolveOutcome : List OracleResp → Option AccrualResponse
  | [] => none
  | OracleResp.transportErr :: _ => none
  | OracleResp.ok none :: _ => none
  | OracleResp.ok (some a) :: _ => some a
  | OracleResp.noContent :: _ => none
  | OracleResp.tooMany none :: _ => none
  | OracleResp.tooMany (some _) :: rest => resolveOutcome rest

/-- Counts the recursive re-issues `Client.updateOrderStatus` performs on a
chain of responses: each 429 with a parseable Retry-After triggers exactly
one recursive call; every other response ends the chain with no re-issue. -/
def reissues : List OracleResp → Nat
  | OracleResp.tooMany (some _) :: rest => reissues rest + 1
  | _ => 0

/-- Embeds the query of `Client.processOrders`: the orders a reconciliation
tick fans out, `GetOrdersByStatus(ctx, ["NEW", "PROCESSING"])`. -/
def pendingOrders (l : Ledger) : List Order :=
  getOrdersByStatus l ["NEW", "PROCESSING"]

/-- Embeds `luhn.IsValid`'s loop body for one character at index `i`:
`strconv.Atoi` on a single character succeeds exactly on an ASCII digit; the
digit is doubled (and reduced by 9 when above 9) when `i % 2 == parity`. -/
def luhnDigit (parity i : Nat) (c : Char) : Option Nat :=
  if c.isDigit then
    let d := c.toNat - 48
    some (if i % 2 == parity then (if d * 2 > 9 then d * 2 - 9 else d * 2) else d)
  else
    none

/-- Embeds the summation loop of `luhn.IsValid` from index `i` on: any
non-digit character aborts with `none` (the Go code returns false there). -/
def luhnSum (parity i : Nat) : List Char → Option Nat
  | [] => some 0
  | c :: rest =>
    match luhnDigit parity i c with
    | none => none
    | some d => (luhnSum parity (i + 1) rest).map fun s => d + s

/-- Embeds `luhn.IsValid`: parity is the length of the string modulo 2, and
the accumulated sum must be divisible by 10.  A string containing any
character other than an ASCII digit is invalid, which also makes the Go
byte-index/byte-length loop coincide with this character-level model. -/
def luhnIsValid (number : String) : Bool :=
  match luhnSum (number.length % 2) 0 number.data with
  | none => false
  | some s => s % 10 == 0

/-- The body of `models.WithdrawRequest`: order label and amount. -/
structure WithdrawRequest where
  order : String
  sum : Rat
deriving DecidableEq, Repr

/-- Embeds the decision path of the handler `API.CreateOrder` after the body
was read: 422 when the Luhn check fails, otherwise the storage call decides
200 (ErrOrderExists), 409 (ErrOrderExistsOther), 500 (other error) or 202,
returning the resulting HTTP status together with the committed ledger. -/
def createOrderHTTPStatus (l : Ledger) (userID body : String) : Nat × Ledger :=
  if luhnIsValid body then
    match createOrder l userID body with
    | Except.error StorageErr.orderExists => (200, l)
    | Except.error StorageErr.orderExistsOther => (409, l)
    | Except.error _ => (500, l)
    | Except.ok l1 => (202, l1)
  else
    (422, l)

/-- Embeds the decision path of the handler `API.Withdraw` after the body was
decoded: 422 when the Luhn check on the order label fails, otherwise the
storage call decides 402 (ErrInsufficientFunds), 500 (other error) or 200. -/
def withdrawHTTPStatus (l : Ledger) (userID : String) (req : WithdrawRequest) :
    Nat × Ledger :=
  if luhnIsValid req.order then
    match createWithdrawal l userID req.order req.sum with
    | (Except.error StorageErr.insufficientFunds, l1) => (402, l1)
    | (Except.error _, l1) => (500, l1)
    | (Except.ok _, l1) => (200, l1)
  else
    (422, l)

/-- The balance invariant of the specification, as a decidable check: the
summed withdrawals of a user never exceed the summed accrual of the user's
PROCESSED orders. -/
def balanceInvariant (l : Ledger) (userID : String) : Bool :=
  decide (sumWithdrawals l userID ≤ sumAccrualProcessed l userID)

/-- Progress of one `CreateWithdrawal` transaction in the interleaving model:
not yet at its balance check, past a successful check, rolled back after a
failed check, or committed. -/
inductive TxnPhase where
  | pending
  | passed
  | failed
  | committed
deriving DecidableEq, Repr

/-- State of two concurrent `CreateWithdrawal` transactions over one shared
database: the committed ledger and each transaction's phase. -/
structure RaceState where
  ledger : Ledger
  phase1 : TxnPhase
  phase2 : TxnPhase
deriving DecidableEq, Repr

/-- Scheduler events for the two-transaction interleaving: `check i` runs
transaction i's two aggregate SELECTs and its funds test, `commit i` runs its
INSERT and COMMIT. -/
inductive RaceEvent where
  | check1
  | check2
  | commit1
  | commit2
deriving DecidableEq, Repr

/-- The funds test of `CreateWithdrawal` evaluated over a given committed
state: true when the withdrawal passes (`current - withdrawn < sum` fails). -/
def fundsCheck (l : Ledger) (userID : String) (sum : Rat) : Bool :=
  !(sumAccrualProcessed l userID - sumWithdrawals l userID < sum)

/-- One scheduler step of two concurrent `CreateWithdrawal(u1, o1, s1)` and
`CreateWithdrawal(u2, o2, s2)` transactions under PostgreSQL's default
READ COMMITTED isolation, which is what `pool.Begin` gives the Go code: the
aggregate SELECTs take no row locks and observe exactly the committed rows,
and a transaction's INSERT becomes visible to others only at COMMIT.  Since
the code issues no locking clause and no isolation level, the two checks may
both run against the same committed state. -/
def raceStep (w1 w2 : Withdrawal) (s : RaceState) : RaceEvent → RaceState
  | RaceEvent.check1 =>
      if s.phase1 == TxnPhase.pending then
        if fundsCheck s.ledger w1.userID w1.sum then
          RaceState.mk s.ledger TxnPhase.passed s.phase2
        else
          RaceState.mk s.ledger TxnPhase.failed s.phase2
      else s
  | RaceEvent.check2 =>
      if s.phase2 == TxnPhase.pending then
        if fundsCheck s.ledger w2.userID w2.sum then
          RaceState.mk s.ledger s.phase1 TxnPhase.passed
        else
          RaceState.mk s.ledger s.phase1 TxnPhase.failed
      else s
  | RaceEvent.commit1 =>
      if s.phase1 == TxnPhase.passed then
        RaceState.mk (Ledger.mk s.ledger.orders (s.ledger.withdrawals ++ [w1]))
          TxnPhase.committed s.phase2
      else s
  | RaceEvent.commit2 =>
      if s.phase2 == TxnPhase.passed then
        RaceState.mk (Ledger.mk s.ledger.orders (s.ledger.withdrawals ++ [w2]))
          s.phase1 TxnPhase.committed
      else s

/-- Runs a schedule of events over the two-transaction race model. -/
def runRace (w1 w2 : Withdrawal) (l : Ledger) (events : List RaceEvent) : RaceState :=
  events.foldl (raceStep w1 w2) (RaceState.mk l TxnPhase.pending TxnPhase.pending)

/-- C1: the claim says a status update that would move an order already in a
terminal status backward (PROCESSED → PROCESSING) is rejected or ignored,
leaving the stored status and accrual unchanged.  The code refutes it: the
embedded `Client.updateOrderStatus` / `PostgresStorage.UpdateOrder` path,
applied to an order stored as PROCESSED with accrual 500 and a stale
well-formed 200 response carrying status PROCESSING, overwrites the terminal
status with PROCESSING and erases the accrual. -/
theorem updateOrder_overwrites_terminal_status :
    updateOrderStatus (Ledger.mk [Order.mk "u" "79927398713" "PROCESSED" (some 500)] [])
      [OracleResp.ok (some (AccrualResponse.mk "79927398713" "PROCESSING" none))]
    = Ledger.mk [Order.mk "u" "79927398713" "PROCESSING" none] [] := by
  simp [updateOrderStatus, updateOrder]

/-- C2: the claim says that for a user with balance exactly 100.00, two
concurrent withdrawals of 60.00 each cannot both pass their balance checks
against the same pre-transaction balance.  The code refutes it: under the
READ COMMITTED isolation its transaction actually runs with, the schedule
that runs both balance checks before either commit lets both transactions
commit, recording 120 of withdrawals against 100 of processed accrual and
falsifying the balance invariant; only the serial schedule makes the second
request fail. -/
theorem concurrent_withdrawals_can_both_commit :
    runRace (Withdrawal.mk "u" "2377225624" 60) (Withdrawal.mk "u" "2377225624" 60)
      (Ledger.mk [Order.mk "u" "79927398713" "PROCESSED" (some 100)] [])
      [RaceEvent.check1, RaceEvent.check2, RaceEvent.commit1, RaceEvent.commit2]
    = RaceState.mk
        (Ledger.mk [Order.mk "u" "79927398713" "PROCESSED" (some 100)]
          [Withdrawal.mk "u" "2377225624" 60, Withdrawal.mk "u" "2377225624" 60])
        TxnPhase.committed TxnPhase.committed
    ∧ sumWithdrawals
        (Ledger.mk [Order.mk "u" "79927398713" "PROCESSED" (some 100)]
          [Withdrawal.mk "u" "2377225624" 60, Withdrawal.mk "u" "2377225624" 60]) "u"
      = 120
    ∧ sumAccrualProcessed
        (Ledger.mk [Order.mk "u" "79927398713" "PROCESSED" (some 100)]
          [Withdrawal.mk "u" "2377225624" 60, Withdrawal.mk "u" "2377225624" 60]) "u"
      = 100
    ∧ balanceInvariant
        (Ledger.mk [Order.mk "u" "79927398713" "PROCESSED" (some 100)]
          [Withdrawal.mk "u" "2377225624" 60, Withdrawal.mk "u" "2377225624" 60]) "u"
      = false
    ∧ runRace (Withdrawal.mk "u" "2377225624" 60) (Withdrawal.mk "u" "2377225624" 60)
        (Ledger.mk [Order.mk "u" "79927398713" "PROCESSED" (some 100)] [])
        [RaceEvent.check1, RaceEvent.commit1, RaceEvent.check2, RaceEvent.commit2]
      = RaceState.mk
          (Ledger.mk [Order.mk "u" "79927398713" "PROCESSED" (some 100)]
            [Withdrawal.mk "u" "2377225624" 60])
          TxnPhase.committed TxnPhase.failed := by
  refine ⟨?_, ?_, ?_, ?_, ?_⟩
  · norm_num [runRace, raceStep, fundsCheck, sumAccrualProcessed, sumWithdrawals]
  · norm_num [sumWithdrawals]
  · norm_num [sumAccrualProcessed]
  · norm_num [balanceInvariant, sumAccrualProcessed, sumWithdrawals]
  · norm_num [runRace, raceStep, fundsCheck, sumAccrualProcessed, sumWithdrawals]
    decide

/-- C3: the claim says every operation preserves the invariant
Σ withdrawals ≤ Σ accrual of PROCESSED orders.  The code refutes it for the
status-update operation: starting from a state satisfying the invariant (one
PROCESSED order with accrual 100, total withdrawals 100), the unconditional
`UpdateOrder` moving that order to INVALID leaves 100 of withdrawals against
0 of processed accrual. -/
theorem updateOrder_breaks_balance_invariant :
    balanceInvariant
      (Ledger.mk [Order.mk "u" "79927398713" "PROCESSED" (some 100)]
        [Withdrawal.mk "u" "2377225624" 100]) "u" = true
    ∧ balanceInvariant
        (updateOrder
          (Ledger.mk [Order.mk "u" "79927398713" "PROCESSED" (some 100)]
            [Withdrawal.mk "u" "2377225624" 100])
          "79927398713" "INVALID" none) "u" = false := by
  constructor
  · norm_num [balanceInvariant, sumAccrualProcessed, sumWithdrawals]
  · simp [balanceInvariant, updateOrder, sumAccrualProcessed, sumWithdrawals]

/-- C5: the claim says a 200 response with status REGISTERED is mapped to a
still-pending state that the reconciliation query (status NEW or PROCESSING)
picks up on a later tick.  The code refutes it: the status string is stored
verbatim, so an order in status NEW that receives a REGISTERED response is
stored as REGISTERED, and the pending query of `processOrders`, which selects
exactly the NEW and PROCESSING orders, no longer returns it. -/
theorem registered_status_leaves_pending_set :
    updateOrderStatus (Ledger.mk [Order.mk "u" "79927398713" "NEW" none] [])
      [OracleResp.ok (some (AccrualResponse.mk "79927398713" "REGISTERED" none))]
    = Ledger.mk [Order.mk "u" "79927398713" "REGISTERED" none] []
    ∧ pendingOrders (Ledger.mk [Order.mk "u" "79927398713" "NEW" none] [])
      = [Order.mk "u" "79927398713" "NEW" none]
    ∧ pendingOrders (Ledger.mk [Order.mk "u" "79927398713" "REGISTERED" none] [])
      = [] := by
  refine ⟨?_, ?_, ?_⟩
  · simp [updateOrderStatus, updateOrder]
  · simp [pendingOrders, getOrdersByStatus]
  · simp [pendingOrders, getOrdersByStatus]

/-- C6: the claim says the number of recursive re-issues for one order within
a single resolution invocation is capped even against an oracle that answers
429 with a parseable Retry-After on every attempt.  The code refutes it: for
every proposed cap, the chain of `cap + 1` such responses drives exactly
`cap + 1` recursive re-issues without resolving, so no bound holds. -/
theorem retry_chain_reissues_unbounded (cap : Nat) :
    reissues (List.replicate (cap + 1) (OracleResp.tooMany (some 1))) = cap + 1
    ∧ resolveOutcome (List.replicate (cap + 1) (OracleResp.tooMany (some 1))) = none := by
  induction cap with
  | zero => exact ⟨rfl, rfl⟩
  | succ n ih =>
    refine ⟨?_, ?_⟩
    · have h := ih.1
      simpa [List.replicate_succ, reissues] using h
    · have h := ih.2
      simpa [List.replicate_succ, resolveOutcome] using h

/-- Helper: the rejecting branch of `CreateWithdrawal`. -/
theorem createWithdrawal_insufficient (l : Ledger) (u label : String) (amt : Rat)
    (h : sumAccrualProcessed l u - sumWithdrawals l u < amt) :
    createWithdrawal l u label amt = (Except.error StorageErr.insufficientFunds, l) := by
  simp [createWithdrawal, h]

/-- Helper: the inserting branch of `CreateWithdrawal`. -/
theorem createWithdrawal_accepted (l : Ledger) (u label : String) (amt : Rat)
    (h : amt ≤ sumAccrualProcessed l u - sumWithdrawals l u) :
    createWithdrawal l u label amt
      = (Except.ok (),
          Ledger.mk l.orders (l.withdrawals ++ [Withdrawal.mk u label amt])) := by
  simp [createWithdrawal, not_lt.mpr h]

/-- Helper: appending one withdrawal row adds its amount to the user's
withdrawal aggregate exactly when the row belongs to the user. -/
theorem sumWithdrawals_append (l : Ledger) (u : String) (w : Withdrawal) :
    sumWithdrawals (Ledger.mk l.orders (l.withdrawals ++ [w])) u
      = sumWithdrawals l u + (if w.userID == u then w.sum else 0) := by
  by_cases h : w.userID == u
  · simp [sumWithdrawals, List.filter_append, h]
  · simp [sumWithdrawals, List.filter_append, h]

/-- C4: a withdrawal request recomputes the balance inside the transaction;
when the amount exceeds the current balance it returns InsufficientFunds and
the committed ledger is exactly the pre-transaction one, otherwise it commits
with exactly one new withdrawal row carrying that user, label and amount and
the orders untouched. -/
theorem createWithdrawal_checks_balance_and_inserts_once
    (l : Ledger) (u label : String) (amt : Rat) :
    ((getBalance l u).current < amt →
      createWithdrawal l u label amt = (Except.error StorageErr.insufficientFunds, l))
    ∧ (amt ≤ (getBalance l u).current →
      createWithdrawal l u label amt
        = (Except.ok (),
            Ledger.mk l.orders (l.withdrawals ++ [Withdrawal.mk u label amt]))) := by
  constructor
  · intro h
    exact createWithdrawal_insufficient l u label amt (by simpa [getBalance] using h)
  · intro h
    exact createWithdrawal_accepted l u label amt (by simpa [getBalance] using h)

/-- Witness for C4: with an empty ledger a withdrawal of 60 is rejected and
the ledger stays empty; with 100 of processed accrual it commits one row. -/
theorem createWithdrawal_checks_balance_and_inserts_once_witness :
    createWithdrawal (Ledger.mk [] []) "u" "2377225624" 60
      = (Except.error StorageErr.insufficientFunds, Ledger.mk [] [])
    ∧ createWithdrawal (Ledger.mk [Order.mk "u" "79927398713" "PROCESSED" (some 100)] [])
        "u" "2377225624" 60
      = (Except.ok (),
          Ledger.mk [Order.mk "u" "79927398713" "PROCESSED" (some 100)]
            [Withdrawal.mk "u" "2377225624" 60]) := by
  constructor
  · exact (createWithdrawal_checks_balance_and_inserts_once (Ledger.mk [] [])
      "u" "2377225624" 60).1
      (by norm_num [getBalance, sumAccrualProcessed, sumWithdrawals])
  · have h := (createWithdrawal_checks_balance_and_inserts_once
      (Ledger.mk [Order.mk "u" "79927398713" "PROCESSED" (some 100)] [])
      "u" "2377225624" 60).2
      (by norm_num [getBalance, sumAccrualProcessed, sumWithdrawals])
    simpa using h

/-- C7: the balance query returns current = Σ accrual of the user's PROCESSED
orders minus Σ of the user's withdrawals, and withdrawn = Σ of the user's
withdrawals; a user appearing in no order and no withdrawal row gets the zero
balance, not an error. -/
theorem getBalance_spec (l : Ledger) (u : String) :
    (getBalance l u).current
      = ((l.orders.filter fun o => o.userID == u && o.status == "PROCESSED").map
          fun o => o.accrual.getD 0).sum
        - ((l.withdrawals.filter fun w => w.userID == u).map fun w => w.sum).sum
    ∧ (getBalance l u).withdrawn
      = ((l.withdrawals.filter fun w => w.userID == u).map fun w => w.sum).sum
    ∧ ((∀ o ∈ l.orders, o.userID ≠ u) → (∀ w ∈ l.withdrawals, w.userID ≠ u) →
        getBalance l u = Balance.mk 0 0) := by
  refine ⟨rfl, rfl, ?_⟩
  intro ho hw
  have h1 : l.orders.filter (fun o => o.userID == u && o.status == "PROCESSED") = [] := by
    refine List.filter_eq_nil_iff.mpr ?_
    intro o hmem
    simp [ho o hmem]
  have h2 : l.withdrawals.filter (fun w => w.userID == u) = [] := by
    refine List.filter_eq_nil_iff.mpr ?_
    intro w hmem
    simp [hw w hmem]
  simp [getBalance, sumAccrualProcessed, sumWithdrawals, h1, h2]

/-- Witness for C7: the user `u` has no rows in a ledger holding another
user's order and withdrawal, and receives the zero balance. -/
theorem getBalance_spec_witness :
    getBalance
      (Ledger.mk [Order.mk "v" "79927398713" "PROCESSED" (some 5)]
        [Withdrawal.mk "v" "2377225624" 1]) "u"
      = Balance.mk 0 0 := by
  exact (getBalance_spec
    (Ledger.mk [Order.mk "v" "79927398713" "PROCESSED" (some 5)]
      [Withdrawal.mk "v" "2377225624" 1]) "u").2.2
    (by decide) (by decide)

/-- C8: a resolution chain whose outcome is not a well-formed 200 (it ended
in a 204, a transport error, a malformed body, a dropped or still-pending
retry) leaves every stored order exactly as it was, and a chain that does
resolve performs exactly the single `UpdateOrder` write taken from the
response body. -/
theorem unresolved_attempt_mutates_nothing (l : Ledger) (rs : List OracleResp) :
    (resolveOutcome rs = none → updateOrderStatus l rs = l)
    ∧ (∀ a, resolveOutcome rs = some a →
        updateOrderStatus l rs = updateOrder l a.order a.status a.accrual) := by
  induction rs with
  | nil => simp [resolveOutcome, updateOrderStatus]
  | cons r rest ih =>
    cases r with
    | transportErr => simp [resolveOutcome, updateOrderStatus]
    | ok b => cases b <;> simp [resolveOutcome, updateOrderStatus]
    | noContent => simp [resolveOutcome, updateOrderStatus]
    | tooMany ra =>
      cases ra with
      | none => simp [resolveOutcome, updateOrderStatus]
      | some s => simpa [resolveOutcome, updateOrderStatus] using ih

/-- Witness for C8: a 204 chain and a throttled-then-failed chain both leave
a concrete one-order ledger untouched. -/
theorem unresolved_attempt_mutates_nothing_witness :
    updateOrderStatus (Ledger.mk [Order.mk "u" "79927398713" "NEW" none] [])
      [OracleResp.noContent]
      = Ledger.mk [Order.mk "u" "79927398713" "NEW" none] []
    ∧ updateOrderStatus (Ledger.mk [Order.mk "u" "79927398713" "NEW" none] [])
        [OracleResp.tooMany (some 2), OracleResp.transportErr]
      = Ledger.mk [Order.mk "u" "79927398713" "NEW" none] [] := by
  constructor
  · exact (unresolved_attempt_mutates_nothing
      (Ledger.mk [Order.mk "u" "79927398713" "NEW" none] []) [OracleResp.noContent]).1 rfl
  · exact (unresolved_attempt_mutates_nothing
      (Ledger.mk [Order.mk "u" "79927398713" "NEW" none] [])
      [OracleResp.tooMany (some 2), OracleResp.transportErr]).1 rfl

/-- C9: the Luhn predicate accepts the empty string (an empty digit sequence
sums to 0 and 0 mod 10 = 0), so at the order-submission and withdrawal
endpoints an empty order-number payload passes checksum validation: the
returned HTTP status is never the checksum-failure 422. -/
theorem empty_order_number_passes_validation :
    luhnIsValid "" = true
    ∧ (∀ (l : Ledger) (u : String),
        (createOrderHTTPStatus l u "").1 ∈ ([200, 202, 409, 500] : List Nat))
    ∧ (∀ (l : Ledger) (u : String) (amt : Rat),
        (withdrawHTTPStatus l u (WithdrawRequest.mk "" amt)).1
          ∈ ([200, 402, 500] : List Nat)) := by
  have hl : luhnIsValid "" = true := by decide
  refine ⟨hl, ?_, ?_⟩
  · intro l u
    simp only [createOrderHTTPStatus, hl, if_true]
    split <;> simp
  · intro l u amt
    simp only [withdrawHTTPStatus, hl, if_true]
    split <;> simp

/-- C10: the funds check rejects only when the balance is below the amount,
so a non-positive amount within the balance is inserted like any other
withdrawal, and a recorded negative withdrawal raises the current balance of
every later balance query by its magnitude. -/
theorem nonpositive_withdrawal_accepted (l : Ledger) (u label : String) (amt : Rat)
    (hle : amt ≤ 0) (hbal : amt ≤ (getBalance l u).current) :
    createWithdrawal l u label amt
      = (Except.ok (),
          Ledger.mk l.orders (l.withdrawals ++ [Withdrawal.mk u label amt]))
    ∧ (amt < 0 →
        (getBalance (Ledger.mk l.orders (l.withdrawals ++ [Withdrawal.mk u label amt])) u).current
          = (getBalance l u).current - amt
        ∧ (getBalance l u).current
            < (getBalance (Ledger.mk l.orders
                (l.withdrawals ++ [Withdrawal.mk u label amt])) u).current) := by
  refine ⟨createWithdrawal_accepted l u label amt (by simpa [getBalance] using hbal), ?_⟩
  intro hneg
  have hsw : sumWithdrawals (Ledger.mk l.orders (l.withdrawals ++ [Withdrawal.mk u label amt])) u
      = sumWithdrawals l u + amt := by
    simpa using sumWithdrawals_append l u (Withdrawal.mk u label amt)
  have hsa : sumAccrualProcessed
      (Ledger.mk l.orders (l.withdrawals ++ [Withdrawal.mk u label amt])) u
      = sumAccrualProcessed l u := rfl
  have hcur :
      (getBalance (Ledger.mk l.orders (l.withdrawals ++ [Withdrawal.mk u label amt])) u).current
        = (getBalance l u).current - amt := by
    simp [getBalance, hsw, hsa]
    ring
  refine ⟨hcur, ?_⟩
  rw [hcur]
  linarith

/-- Witness for C10: on the empty ledger (balance 0) a withdrawal of -5 is
accepted and recorded, and the subsequent balance query reports a larger
current balance than before. -/
theorem nonpositive_withdrawal_accepted_witness :
    createWithdrawal (Ledger.mk [] []) "u" "2377225624" (-5)
      = (Except.ok (), Ledger.mk [] [Withdrawal.mk "u" "2377225624" (-5)])
    ∧ (getBalance (Ledger.mk [] []) "u").current
        < (getBalance (Ledger.mk [] [Withdrawal.mk "u" "2377225624" (-5)]) "u").current := by
  have h := nonpositive_withdrawal_accepted (Ledger.mk [] []) "u" "2377225624" (-5)
    (by norm_num) (by norm_num [getBalance, sumAccrualProcessed, sumWithdrawals])
  constructor
  · simpa using h.1
  · have h2 := (h.2 (by norm_num)).2
    simpa using h2

end Gophermart
